import Mathlib

/-!
Verification of the debug-widget client core: the console interceptor and its
log ring buffer (src/capture/console-capture.ts), the reconnecting WebSocket
client (src/api/websocket.ts, class WebSocketClient), the HTTP API client
(src/api/client.ts) and the interaction state held by the Widget component
(src/api/websocket.ts, function Widget).  Every definition is a shallow
embedding of the corresponding TypeScript; theorems settle the spec claims.
-/

namespace DebugWidget

/-! ## Data model (src/types/index.ts) -/

/-- The three console levels of a LogEntry: 'log' | 'warn' | 'error'. -/
inductive LogLevel where
  | log
  | warn
  | error
deriving DecidableEq, Repr

/-- A JavaScript Error value: its message and its (possibly undefined) stack. -/
structure JSError where
  message : String
  stack : Option String
deriving DecidableEq, Repr

/-- One argument of a console call, as observed by ConsoleCapture.captureLog.
`prim` is any value with typeof ≠ 'object' (stringified by String(arg));
`obj` is an object, carrying its JSON.stringify result when serialization
succeeds (`some j`) and the String(arg) fallback used when it throws;
`errObj` is an object that is `instanceof Error`. -/
inductive JSArg where
  | prim (toStr : String)
  | obj (json : Option String) (toStr : String)
  | errObj (e : JSError) (json : Option String) (toStr : String)
deriving DecidableEq, Repr

/-- The stringification applied to each argument in captureLog:
objects go through JSON.stringify with a String(arg) fallback,
everything else through String(arg). -/
def stringifyArg : JSArg → String
  | .prim s => s
  | .obj (some j) _ => j
  | .obj none f => f
  | .errObj _ (some j) _ => j
  | .errObj _ none f => f

/-- LogEntry from src/types/index.ts. -/
structure LogEntry where
  level : LogLevel
  message : String
  timestamp : Int
  stack : Option String
deriving DecidableEq, Repr

namespace ConsoleCapture

/-- The LogEntry built by captureLog from a level, the argument list and the
Date.now() value: arguments are stringified and joined with spaces, and when
the level is 'error' and the first argument is an Error instance its stack is
attached. -/
def mkLogEntry (level : LogLevel) (args : List JSArg) (now : Int) : LogEntry :=
  { level := level
    message := String.intercalate " " (args.map stringifyArg)
    timestamp := now
    stack :=
      match level, args with
      | .error, .errObj e _ _ :: _ => e.stack
      | _, _ => none }

/-- ConsoleCapture.captureLog acting on the logs buffer: push the new entry,
then if the length exceeds maxEntries, shift off the oldest entry. -/
def captureLog (maxEntries : Int) (logs : List LogEntry)
    (level : LogLevel) (args : List JSArg) (now : Int) : List LogEntry :=
  let logs' := logs ++ [mkLogEntry level args now]
  if (logs'.length : Int) > maxEntries then logs'.drop 1 else logs'

/-- ConsoleCapture.getLogs: returns a copy of the buffer ([...this.logs]);
as a value it is the buffer's current contents. -/
def getLogs (logs : List LogEntry) : List LogEntry := logs

/-- A reference held by one of the three console channel slots: either the
pristine browser function saved in `originalConsole`, or the wrapper closure
installed by start(). -/
inductive ConsoleSlot where
  | original
  | wrapper
deriving DecidableEq, Repr

/-- The state of a ConsoleCapture instance together with the three global
console slots it patches. -/
structure State where
  maxEntries : Int
  logs : List LogEntry
  logSlot : ConsoleSlot
  warnSlot : ConsoleSlot
  errorSlot : ConsoleSlot
deriving DecidableEq, Repr

/-- The constructor: empty buffer, console untouched, originalConsole
references already saved. -/
def init (maxEntries : Int) : State :=
  { maxEntries := maxEntries
    logs := []
    logSlot := .original
    warnSlot := .original
    errorSlot := .original }

/-- ConsoleCapture.start: installs the three wrapper closures over
console.log / console.warn / console.error. -/
def start (s : State) : State :=
  { s with logSlot := .wrapper, warnSlot := .wrapper, errorSlot := .wrapper }

/-- ConsoleCapture.stop: writes the saved originalConsole references back
into the three console slots. -/
def stop (s : State) : State :=
  { s with logSlot := .original, warnSlot := .original, errorSlot := .original }

/-- The slot a console call at the given level dispatches through. -/
def slotOf (s : State) : LogLevel → ConsoleSlot
  | .log => s.logSlot
  | .warn => s.warnSlot
  | .error => s.errorSlot

/-- Effect of the host page calling console.log / warn / error with `args` at
time `now`.  The second component is the list of calls forwarded to the
pristine browser console: a wrapper records a LogEntry and then forwards the
arguments unchanged (originalConsole.X.apply(console, args)); the pristine
function just runs. -/
def consoleCall (s : State) (level : LogLevel) (args : List JSArg) (now : Int) :
    State × List (LogLevel × List JSArg) :=
  match slotOf s level with
  | .original => (s, [(level, args)])
  | .wrapper =>
      ({ s with logs := captureLog s.maxEntries s.logs level args now },
       [(level, args)])

/-- One console call made by the host page: level, arguments, Date.now(). -/
structure Call where
  level : LogLevel
  args : List JSArg
  now : Int
deriving DecidableEq, Repr

/-- Run a sequence of host console calls against the capture state. -/
def runConsole (s : State) (calls : List Call) : State :=
  calls.foldl (fun st c => (consoleCall st c.level c.args c.now).1) s

/-- The buffer contents after folding captureLog over a call sequence,
starting from an empty buffer. -/
def runCaptureLogs (maxEntries : Int) (calls : List Call) : List LogEntry :=
  calls.foldl (fun logs c => captureLog maxEntries logs c.level c.args c.now) []

end ConsoleCapture

/-! ## Generic last-n-elements helper -/

/-- The last `n` elements of a list (all of it when it is shorter). -/
def lastN (n : Nat) (l : List α) : List α := l.drop (l.length - n)

theorem lastN_length_le (n : Nat) (l : List α) : (lastN n l).length ≤ n := by
  simp only [lastN, List.length_drop]
  omega

theorem lastN_of_length_le {n : Nat} {l : List α} (h : l.length ≤ n) :
    lastN n l = l := by
  simp [lastN, Nat.sub_eq_zero_of_le h]

theorem lastN_drop {m k : Nat} {l : List α} (h : k + m ≤ l.length) :
    lastN m (l.drop k) = lastN m l := by
  simp only [lastN, List.length_drop, List.drop_drop]
  congr 1
  omega

theorem lastN_append_lastN (n : Nat) (L T : List α) :
    lastN n (lastN n L ++ T) = lastN n (L ++ T) := by
  by_cases h : L.length ≤ n
  · rw [lastN_of_length_le h]
  · have hk : L.length - n ≤ L.length := Nat.sub_le _ _
    have hdrop : lastN n L ++ T = (L ++ T).drop (L.length - n) := by
      simp only [lastN]
      rw [List.drop_append_of_le_length hk]
    rw [hdrop, lastN_drop]
    simp only [List.length_append]
    omega

namespace ConsoleCapture

theorem captureLog_eq_lastN {m : Int} (hm : 0 ≤ m) {logs : List LogEntry}
    (h : logs.length ≤ m.toNat) (level : LogLevel) (args : List JSArg) (now : Int) :
    captureLog m logs level args now =
      lastN m.toNat (logs ++ [mkLogEntry level args now]) := by
  unfold captureLog
  by_cases hgt : ((logs ++ [mkLogEntry level args now]).length : Int) > m
  · rw [if_pos hgt]
    have hlen : (logs ++ [mkLogEntry level args now]).length = m.toNat + 1 := by
      simp only [List.length_append, List.length_singleton] at hgt ⊢
      omega
    simp only [lastN, hlen]
    congr 1
    omega
  · rw [if_neg hgt]
    refine (lastN_of_length_le ?_).symm
    simp only [List.length_append, List.length_singleton] at hgt ⊢
    omega

theorem runCaptureLogs_from {m : Int} (hm : 0 ≤ m) (calls : List Call) :
    ∀ logs : List LogEntry, logs.length ≤ m.toNat →
      calls.foldl (fun lg c => captureLog m lg c.level c.args c.now) logs =
        lastN m.toNat (logs ++ calls.map (fun c => mkLogEntry c.level c.args c.now)) := by
  induction calls with
  | nil =>
      intro logs h
      simp [lastN_of_length_le h]
  | cons c cs ih =>
      intro logs h
      rw [List.foldl_cons, captureLog_eq_lastN hm h,
          ih _ (lastN_length_le _ _), List.map_cons]
      rw [lastN_append_lastN]
      simp

/-- The buffer after a call sequence from an empty buffer is the last
maxEntries entries of the full entry sequence, in call order. -/
theorem runCaptureLogs_eq_lastN {m : Int} (hm : 0 ≤ m) (calls : List Call) :
    runCaptureLogs m calls =
      lastN m.toNat (calls.map (fun c => mkLogEntry c.level c.args c.now)) := by
  have h := runCaptureLogs_from hm calls [] (by simp)
  simpa [runCaptureLogs] using h

/-- After start(), every console call dispatches through a wrapper, so running
the host calls is exactly folding captureLog over them. -/
theorem runConsole_start_logs (m : Int) (calls : List Call) :
    ∀ logs : List LogEntry,
      (runConsole ⟨m, logs, .wrapper, .wrapper, .wrapper⟩ calls).logs =
        calls.foldl (fun lg c => captureLog m lg c.level c.args c.now) logs := by
  induction calls with
  | nil => intro logs; rfl
  | cons c cs ih =>
      intro logs
      have hstep : (consoleCall ⟨m, logs, .wrapper, .wrapper, .wrapper⟩ c.level c.args c.now).1 =
          ⟨m, captureLog m logs c.level c.args c.now, .wrapper, .wrapper, .wrapper⟩ := by
        cases c.level <;> rfl
      simp only [runConsole, List.foldl_cons, hstep]
      exact ih _

end ConsoleCapture

/-! ## Claim C1: FIFO eviction law of the log ring buffer -/

open ConsoleCapture in
/-- C1: after start(), for every sequence of console calls interleaved across
the three levels, the getLogs() snapshot equals the sequence of entries in
call order truncated to the last maxLogEntries entries: record appends and,
whenever the size exceeds maxLogEntries, the oldest entry is evicted first
(strict FIFO). -/
theorem consoleCapture_fifo_eviction (m : Int) (hm : 0 ≤ m)
    (calls : List ConsoleCapture.Call) :
    getLogs (runConsole (start (init m)) calls).logs =
      lastN m.toNat (calls.map (fun c => mkLogEntry c.level c.args c.now)) := by
  have h1 : start (init m) = ⟨m, [], .wrapper, .wrapper, .wrapper⟩ := rfl
  rw [getLogs, h1, runConsole_start_logs]
  exact runCaptureLogs_from hm calls [] (by simp)

open ConsoleCapture in
/-- C1 witness: with maxLogEntries = 2, the calls log("a"), warn("b"),
error("c") yield the snapshot [{warn,"b"},{error,"c"}]: the oldest entry "a"
is evicted. -/
theorem consoleCapture_fifo_eviction_witness :
    getLogs (runConsole (start (init 2))
        [⟨.log, [.prim "a"], 1⟩, ⟨.warn, [.prim "b"], 2⟩, ⟨.error, [.prim "c"], 3⟩]).logs =
      [⟨.warn, "b", 2, none⟩, ⟨.error, "c", 3, none⟩] := by
  rw [consoleCapture_fifo_eviction 2 (by norm_num)
    [⟨.log, [.prim "a"], 1⟩, ⟨.warn, [.prim "b"], 2⟩, ⟨.error, [.prim "c"], 3⟩]]
  rfl

/-! ## Claim C5: stop() restores the pristine console -/

open ConsoleCapture in
/-- C5: after stop(), the three console slots hold the exact saved
originalConsole references again (not new wrapper functions); every
subsequent console call leaves the log buffer unchanged (zero new LogEntry
instances) and forwards exactly what the pristine pre-start() channel would
run. -/
theorem consoleCapture_stop_reversible (s : ConsoleCapture.State)
    (level : LogLevel) (args : List JSArg) (now : Int) :
    (stop s).logSlot = .original ∧
    (stop s).warnSlot = .original ∧
    (stop s).errorSlot = .original ∧
    (consoleCall (stop s) level args now).1.logs = s.logs ∧
    (consoleCall (stop s) level args now).2 =
      (consoleCall (init s.maxEntries) level args now).2 := by
  refine ⟨rfl, rfl, rfl, ?_, ?_⟩ <;> cases level <;> rfl

/-! ## Claim C9: maxLogEntries ≤ 0 -/

open ConsoleCapture in
/-- C9 counterexample: the constructor stores maxEntries verbatim, with no
clamp to at least 1.  With maxLogEntries = 0 a recorded entry is immediately
evicted and the buffer stays empty, whereas the clamped limit max 1 0 = 1
would retain the last entry, so the two behaviors differ on the single call
log("a"). -/
theorem captureLog_not_clamped_counterexample :
    captureLog 0 [] .log [.prim "a"] 1 = [] ∧
    captureLog (max 1 0) [] .log [.prim "a"] 1 = [⟨.log, "a", 1, none⟩] ∧
    captureLog 0 [] .log [.prim "a"] 1 ≠ captureLog (max 1 0) [] .log [.prim "a"] 1 := by
  refine ⟨rfl, rfl, ?_⟩
  intro h
  simp only [captureLog] at h
  exact absurd h (by decide)

open ConsoleCapture in
/-- C9 amended: for every maxLogEntries ≤ 0, no record() call crashes (each
step is a total function on the buffer), but the limit is not clamped: every
appended entry is at once evicted, so after any sequence of console calls the
buffer is empty — capture is effectively disabled. -/
theorem captureLog_nonpositive_limit (m : Int) (hm : m ≤ 0)
    (calls : List ConsoleCapture.Call) :
    runCaptureLogs m calls = [] := by
  have hstep : ∀ level args now, captureLog m [] level args now = [] := by
    intro level args now
    simp only [captureLog, List.nil_append, List.length_singleton]
    rw [if_pos (by omega)]
    rfl
  unfold runCaptureLogs
  induction calls with
  | nil => rfl
  | cons c cs ih => rw [List.foldl_cons, hstep]; exact ih

open ConsoleCapture in
/-- C9 witness: with maxLogEntries = -3, two recorded calls complete and leave
the buffer empty. -/
theorem captureLog_nonpositive_limit_witness :
    runCaptureLogs (-3) [⟨.log, [.prim "x"], 1⟩, ⟨.warn, [.prim "y"], 2⟩] = [] :=
  captureLog_nonpositive_limit (-3) (by norm_num)
    [⟨.log, [.prim "x"], 1⟩, ⟨.warn, [.prim "y"], 2⟩]

/-! ## Heap model of array aliasing for the snapshot-isolation law (C4)

The pure functions above cannot express aliasing, so the send path is also
modelled against an explicit store of JavaScript arrays: `this.logs` is a
reference into the store that captureLog mutates in place (push/shift), and
getLogs allocates a fresh array holding a copy of the buffer's contents
([...this.logs]). -/

/-- A store of JavaScript arrays of log entries; a reference is an index. -/
structure JSHeap where
  arrays : List (List LogEntry)
deriving Repr

/-- Read the array behind a reference. -/
def readArr (h : JSHeap) (r : Nat) : List LogEntry := (h.arrays[r]?).getD []

/-- Overwrite the contents of the array behind a reference. -/
def writeArr (h : JSHeap) (r : Nat) (v : List LogEntry) : JSHeap :=
  ⟨h.arrays.set r v⟩

/-- Allocate a fresh array with the given contents, returning its reference. -/
def allocArr (h : JSHeap) (v : List LogEntry) : JSHeap × Nat :=
  (⟨h.arrays ++ [v]⟩, h.arrays.length)

namespace ConsoleCapture

/-- captureLog acting on the buffer array in the store: the push and the
conditional shift mutate the array behind `bufRef` in place. -/
def captureLogRef (maxEntries : Int) (h : JSHeap) (bufRef : Nat)
    (level : LogLevel) (args : List JSArg) (now : Int) : JSHeap :=
  writeArr h bufRef (captureLog maxEntries (readArr h bufRef) level args now)

/-- getLogs on the store: [...this.logs] allocates a fresh array holding a
copy of the buffer's current contents. -/
def getLogsRef (h : JSHeap) (bufRef : Nat) : JSHeap × Nat :=
  allocArr h (readArr h bufRef)

end ConsoleCapture

open ConsoleCapture in
/-- Widget.handleSend's capture prefix with interleaved records: the logs
field of the in-flight DebugReport is the getLogs() snapshot taken at send
time, after which each console call recorded before the send resolves
mutates the live buffer.  Returns the logs the resolved send submitted and
the final store. -/
def handleSendInterleaved (maxEntries : Int) (h : JSHeap) (bufRef : Nat)
    (late : List ConsoleCapture.Call) : List LogEntry × JSHeap :=
  let snap := getLogsRef h bufRef
  let h2 := late.foldl
    (fun hh c => captureLogRef maxEntries hh bufRef c.level c.args c.now) snap.1
  (readArr h2 snap.2, h2)

theorem get?_append_length (l : List α) (a : α) :
    (l ++ [a])[l.length]? = some a := by
  induction l with
  | nil => rfl
  | cons x xs ih => simp [ih]

theorem readArr_writeArr_ne (h : JSHeap) {r r' : Nat} (hne : r' ≠ r)
    (v : List LogEntry) : readArr (writeArr h r v) r' = readArr h r' := by
  simp only [readArr, writeArr]
  rw [List.getElem?_set_ne (Ne.symm hne)]

theorem writeArr_length (h : JSHeap) (r : Nat) (v : List LogEntry) :
    (writeArr h r v).arrays.length = h.arrays.length := by
  simp [writeArr]

/-! ## Claim C4: snapshot isolation of the in-flight report -/

open ConsoleCapture in
/-- C4: for every send that begins while the buffer holds entries [e1..ek],
recording further entries before the send resolves never mutates the
point-in-time copy taken at send time: the submitted report's logs equal
exactly [e1..ek], whatever is recorded in between. -/
theorem handleSend_snapshot_isolation (maxEntries : Int) (h : JSHeap)
    (bufRef : Nat) (href : bufRef < h.arrays.length)
    (late : List ConsoleCapture.Call) :
    (handleSendInterleaved maxEntries h bufRef late).1 = readArr h bufRef := by
  unfold handleSendInterleaved getLogsRef allocArr
  set snapRef := h.arrays.length with hsnap
  have hne : snapRef ≠ bufRef := by omega
  set h1 : JSHeap := ⟨h.arrays ++ [readArr h bufRef]⟩ with hh1
  have hread1 : readArr h1 snapRef = readArr h bufRef := by
    simp only [readArr, hh1, hsnap]
    rw [get?_append_length]
    rfl
  suffices hfold : ∀ hh : JSHeap, readArr hh snapRef = readArr h bufRef →
      readArr (late.foldl
        (fun hh c => captureLogRef maxEntries hh bufRef c.level c.args c.now) hh)
        snapRef = readArr h bufRef by
    exact hfold h1 hread1
  induction late with
  | nil => intro hh hinv; exact hinv
  | cons c cs ih =>
      intro hh hinv
      rw [List.foldl_cons]
      refine ih _ ?_
      rw [captureLogRef, readArr_writeArr_ne _ hne]
      exact hinv

/-- C4 witness: a send beginning with buffer [e1] submits exactly [e1] even
though another entry is recorded before the send resolves. -/
theorem handleSend_snapshot_isolation_witness :
    (handleSendInterleaved 1000 ⟨[[⟨.log, "e1", 1, none⟩]]⟩ 0
        [⟨.warn, [.prim "e2"], 2⟩]).1 = [⟨.log, "e1", 1, none⟩] := by
  rw [handleSend_snapshot_isolation 1000 ⟨[[⟨.log, "e1", 1, none⟩]]⟩ 0
    (by simp) [⟨.warn, [.prim "e2"], 2⟩]]
  rfl

/-! ## WebSocketClient reconnect scheduling (src/api/websocket.ts) -/

namespace WebSocketClient

/-- The reconnect-relevant state of a WebSocketClient: whether the
reconnectTimeout handle is non-null, and how many connection attempts have
been made (calls to connect()). -/
structure State where
  reconnectTimeoutPending : Bool
  connectCalls : Nat
deriving DecidableEq, Repr

/-- WebSocketClient.scheduleReconnect: an in-flight timer suppresses the
request; otherwise a single 5000 ms timer is armed. -/
def scheduleReconnect (s : State) : State :=
  if s.reconnectTimeoutPending then s
  else { s with reconnectTimeoutPending := true }

/-- The ws.onclose handler: it schedules a reconnect. -/
def oncloseEvent (s : State) : State := scheduleReconnect s

/-- The armed timer firing after 5000 ms: the callback nulls the handle and
calls connect(). -/
def timerFire (s : State) : State :=
  if s.reconnectTimeoutPending then
    { reconnectTimeoutPending := false, connectCalls := s.connectCalls + 1 }
  else s

/-- A burst of `n` close events with no intervening timer expiry. -/
def closeBurst (n : Nat) (s : State) : State :=
  (List.replicate n ()).foldl (fun st _ => oncloseEvent st) s

theorem oncloseEvent_pending (s : State)
    (h : s.reconnectTimeoutPending = true) : oncloseEvent s = s := by
  simp [oncloseEvent, scheduleReconnect, h]

theorem closeBurst_succ (n : Nat) (s : State) :
    closeBurst (n + 1) s = closeBurst n (oncloseEvent s) := by
  simp [closeBurst, List.replicate_succ]

end WebSocketClient

/-! ## Claim C3: at most one pending reconnection timer -/

open WebSocketClient in
/-- C3: from a state with no pending timer, any burst of one or more close
events before the 5000 ms timer fires arms exactly one timer — a pending
timer suppresses every further scheduling request — and schedules no extra
connection attempt: the burst is equivalent to a single close event, and
when the timer then fires exactly one reconnection attempt runs. -/
theorem scheduleReconnect_single_timer (s : WebSocketClient.State) (n : Nat)
    (hn : 1 ≤ n) (hp : s.reconnectTimeoutPending = false) :
    closeBurst n s = oncloseEvent s ∧
    (closeBurst n s).reconnectTimeoutPending = true ∧
    (closeBurst n s).connectCalls = s.connectCalls ∧
    (timerFire (closeBurst n s)).connectCalls = s.connectCalls + 1 := by
  have hone : oncloseEvent s =
      { reconnectTimeoutPending := true, connectCalls := s.connectCalls } := by
    simp [oncloseEvent, scheduleReconnect, hp]
  have hburst : ∀ k, closeBurst (k + 1) s = oncloseEvent s := by
    intro k
    induction k with
    | zero => simp [closeBurst, List.replicate]
    | succ j ih =>
        rw [closeBurst_succ] at ih ⊢
        calc closeBurst (j + 1) (oncloseEvent s)
            = closeBurst j (oncloseEvent (oncloseEvent s)) := closeBurst_succ _ _
          _ = closeBurst j (oncloseEvent s) := by
              rw [oncloseEvent_pending (oncloseEvent s) (by rw [hone])]
          _ = oncloseEvent s := ih
  obtain ⟨k, rfl⟩ : ∃ k, n = k + 1 := ⟨n - 1, by omega⟩
  refine ⟨hburst k, ?_, ?_, ?_⟩
  · rw [hburst k, hone]
  · rw [hburst k, hone]
  · rw [hburst k, hone]
    simp [timerFire]

open WebSocketClient in
/-- C3 witness: two close events in a row arm a single timer and, when it
fires, produce exactly one reconnection attempt. -/
theorem scheduleReconnect_single_timer_witness :
    closeBurst 2 ⟨false, 0⟩ = oncloseEvent ⟨false, 0⟩ ∧
    (closeBurst 2 ⟨false, 0⟩).reconnectTimeoutPending = true ∧
    (closeBurst 2 ⟨false, 0⟩).connectCalls = 0 ∧
    (timerFire (closeBurst 2 ⟨false, 0⟩)).connectCalls = 0 + 1 :=
  scheduleReconnect_single_timer ⟨false, 0⟩ 2 (by norm_num) rfl

/-! ## Widget interaction state (src/api/websocket.ts, function Widget) -/

/-- QuestionType from src/types/index.ts: 'text' | 'multipleChoice' | 'boolean'. -/
inductive QuestionType where
  | text
  | multipleChoice
  | boolean
deriving DecidableEq, Repr

/-- Question from src/types/index.ts. -/
structure Question where
  id : String
  text : String
  type : QuestionType
  options : Option (List String)
  required : Bool
deriving DecidableEq, Repr

/-- DebugMode: 'wait' | 'backlog'. -/
inductive DebugMode where
  | wait
  | backlog
deriving DecidableEq, Repr

/-- DebugSession.status: 'pending' | 'answered' | 'timeout'. -/
inductive SessionStatus where
  | pending
  | answered
  | timeout
deriving DecidableEq, Repr

/-- DebugSession, the persisted session-history record. -/
structure DebugSession where
  id : String
  timestamp : Int
  comment : String
  status : SessionStatus
  reportId : Option String
  sessionId : Option String
deriving DecidableEq, Repr

/-- The value returned by APIClient.submitDebugReport (the parsed
result.data of a 2xx response). -/
structure SubmitResponse where
  reportId : String
  timestamp : Int
  sessionId : Option String
  backlogItemId : Option String
deriving DecidableEq, Repr

/-- The shape of the peer's HTTP response as fetch exposes it. -/
structure HttpResponse where
  ok : Bool
  statusText : String
  data : SubmitResponse
deriving DecidableEq, Repr

namespace APIClient

/-- APIClient.submitDebugReport (src/api/client.ts): a non-ok response makes
it throw `Failed to submit debug report: statusText`; otherwise it returns
the parsed result.data. -/
def submitDebugReport (response : HttpResponse) : Except String SubmitResponse :=
  if response.ok then .ok response.data
  else .error ("Failed to submit debug report: " ++ response.statusText)

end APIClient

namespace Widget

/-- The useState-held interaction state of the Widget component. -/
structure State where
  comment : String
  screenshot : Option String
  isSending : Bool
  status : String
  debugMode : DebugMode
  isWaitingForResponse : Bool
  sessions : List DebugSession
  questions : List Question
  sessionId : Option String
  answers : List (String × String)
  currentStep : Nat
deriving DecidableEq, Repr

/-- Widget.handleSend given the already-resolved outcome of
apiClient.submitDebugReport: on success it appends a pending DebugSession,
clears the comment and screenshot, then branches on debugMode (wait enters
the waiting state, backlog only sets a status); on a thrown error it surfaces
`Error: ...` and clears the waiting flag; the finally block resets
isSending. -/
def handleSend (s : State) (now : Int)
    (result : Except String SubmitResponse) : State :=
  let s1 := { s with isSending := true, status := "Sending..." }
  match result with
  | .ok response =>
      let newSession : DebugSession :=
        { id := "session-" ++ toString now
          timestamp := now
          comment := if s1.comment = "" then "No comment" else s1.comment
          status := .pending
          reportId := some response.reportId
          sessionId := response.sessionId }
      let s2 := { s1 with
        sessions := s1.sessions ++ [newSession]
        comment := ""
        screenshot := none }
      let s3 :=
        match s2.debugMode with
        | .wait =>
            { s2 with isWaitingForResponse := true, status := "Waiting for response..." }
        | .backlog => { s2 with status := "Added to backlog" }
      { s3 with isSending := false }
  | .error e =>
      { s1 with
        status := "Error: " ++ e
        isWaitingForResponse := false
        isSending := false }

/-- The wsClient.onQuestions callback registered by the Widget: store the
session id and questions, reset the answers and the step, clear the waiting
flag, and replace the status text. -/
def onQuestionsCallback (s : State) (sid : String) (qs : List Question) : State :=
  { s with
    sessionId := some sid
    questions := qs
    answers := []
    currentStep := 0
    isWaitingForResponse := false
    status := "Questions received" }

/-- Widget.handleSubmitAnswers given the already-resolved outcome of
apiClient.submitAnswers.  The Bool records whether an HTTP request was
issued: with no stored session id the handler returns immediately. -/
def handleSubmitAnswers (s : State) (apiResult : Except String Unit) :
    State × Bool :=
  match s.sessionId with
  | none => (s, false)
  | some sid =>
      match apiResult with
      | .ok _ =>
          ({ s with
              sessions := s.sessions.map (fun r =>
                if r.sessionId = some sid then { r with status := .answered } else r)
              questions := []
              sessionId := none
              isWaitingForResponse := false
              status := "Answers submitted" }, true)
      | .error _ => ({ s with status := "Failed to submit answers" }, true)

/-- The Q&A modal's Next button.  It is rendered exactly while
currentStep < questions.length - 1, and its onClick is
setCurrentStep(currentStep + 1): the source performs no required-field
check before advancing. -/
def nextClick (s : State) : State :=
  if s.currentStep < s.questions.length - 1 then
    { s with currentStep := s.currentStep + 1 }
  else s

end Widget

namespace WebSocketClient

/-- An inbound WebSocket payload after JSON.parse: either a message tagged
'questions' carrying {sessionId, questions}, or any message with another
type tag. -/
inductive WsMessage where
  | questions (sessionId : String) (questions : List Question)
  | other

/-- WebSocketClient.handleMessage: a 'questions' message is dispatched
through the registered onQuestions callback (the Widget's handler); every
other message is ignored. -/
def handleMessage (s : Widget.State) : WsMessage → Widget.State
  | .questions sid qs => Widget.onQuestionsCallback s sid qs
  | .other => s

end WebSocketClient

/-! ## Claim C6: backlog mode never enters awaiting-peer -/

/-- C6: a report submission with mode = backlog never enters the
awaiting-peer state, whatever the shape of the peer's success response: the
controller stays out of waiting and shows the backlog status; a wait-mode
success, by contrast, enters awaiting-peer. -/
theorem handleSend_backlog_never_waits (s : Widget.State) (now : Int)
    (response : SubmitResponse) :
    (s.debugMode = .backlog → s.isWaitingForResponse = false →
      (Widget.handleSend s now (.ok response)).isWaitingForResponse = false ∧
      (Widget.handleSend s now (.ok response)).status = "Added to backlog") ∧
    (s.debugMode = .wait →
      (Widget.handleSend s now (.ok response)).isWaitingForResponse = true ∧
      (Widget.handleSend s now (.ok response)).status = "Waiting for response...") := by
  constructor
  · intro hmode hidle
    simp [Widget.handleSend, hmode, hidle]
  · intro hmode
    simp [Widget.handleSend, hmode]

/-- C6 witness: a concrete backlog-mode send with a wait-shaped success
response (a sessionId present) still does not enter awaiting-peer. -/
theorem handleSend_backlog_never_waits_witness :
    (Widget.handleSend
        ⟨"c", none, false, "", .backlog, false, [], [], none, [], 0⟩ 5
        (.ok ⟨"r1", 1000, some "s1", none⟩)).isWaitingForResponse = false ∧
    (Widget.handleSend
        ⟨"c", none, false, "", .backlog, false, [], [], none, [], 0⟩ 5
        (.ok ⟨"r1", 1000, some "s1", none⟩)).status = "Added to backlog" :=
  (handleSend_backlog_never_waits
    ⟨"c", none, false, "", .backlog, false, [], [], none, [], 0⟩ 5
    ⟨"r1", 1000, some "s1", none⟩).1 rfl rfl

/-! ## Claim C7: a question batch preempts awaiting-peer -/

/-- C7: delivery of a question-batch message while the controller is
awaiting the peer unconditionally moves it to answering at question index 0
with the delivered questions and session id, clears the previous answers,
clears the waiting flag, and overwrites the stale wait-status message. -/
theorem handleMessage_questions_preempts (s : Widget.State) (sid : String)
    (qs : List Question) (_hwait : s.isWaitingForResponse = true) :
    WebSocketClient.handleMessage s (.questions sid qs) =
      { s with
        questions := qs
        sessionId := some sid
        answers := []
        currentStep := 0
        isWaitingForResponse := false
        status := "Questions received" } := rfl

/-- C7 witness: the concrete scenario of §8 — a question batch arriving in
the waiting state opens the answering flow at index 0 with that single
question. -/
theorem handleMessage_questions_preempts_witness :
    WebSocketClient.handleMessage
        ⟨"", none, false, "Waiting for response...", .wait, true, [], [], none,
          [("old", "x")], 3⟩
        (.questions "s1" [⟨"q1", "Why?", .text, none, true⟩]) =
      ⟨"", none, false, "Questions received", .wait, false, [],
        [⟨"q1", "Why?", .text, none, true⟩], some "s1", [], 0⟩ :=
  handleMessage_questions_preempts
    ⟨"", none, false, "Waiting for response...", .wait, true, [], [], none,
      [("old", "x")], 3⟩
    "s1" [⟨"q1", "Why?", .text, none, true⟩] rfl

/-! ## Claim C8: failed sends keep the comment, successful sends clear it -/

/-- C8: when apiClient.submitDebugReport throws — the peer is unreachable or
rejects with a non-ok status — handleSend returns the controller to idle
(waiting flag and isSending false) with a surfaced status message and the
user-entered comment untouched; the comment is cleared only when the send
succeeds. -/
theorem handleSend_failure_keeps_comment (s : Widget.State) (now : Int)
    (response : HttpResponse) :
    (response.ok = false →
      (Widget.handleSend s now (APIClient.submitDebugReport response)).comment = s.comment ∧
      (Widget.handleSend s now (APIClient.submitDebugReport response)).isWaitingForResponse
        = false ∧
      (Widget.handleSend s now (APIClient.submitDebugReport response)).isSending = false ∧
      (Widget.handleSend s now (APIClient.submitDebugReport response)).status =
        "Error: " ++ ("Failed to submit debug report: " ++ response.statusText)) ∧
    (response.ok = true →
      (Widget.handleSend s now (APIClient.submitDebugReport response)).comment = "") := by
  constructor
  · intro hfail
    simp [APIClient.submitDebugReport, hfail, Widget.handleSend]
  · intro hok
    cases hmode : s.debugMode <;>
      simp [APIClient.submitDebugReport, hok, Widget.handleSend, hmode]

/-- C8 witness: a concrete rejected send keeps the comment "hello" and
returns to idle, while the same send succeeding clears it. -/
theorem handleSend_failure_keeps_comment_witness :
    (Widget.handleSend
        ⟨"hello", none, false, "", .wait, false, [], [], none, [], 0⟩ 7
        (APIClient.submitDebugReport ⟨false, "Bad Request", ⟨"", 0, none, none⟩⟩)).comment
      = "hello" ∧
    (Widget.handleSend
        ⟨"hello", none, false, "", .wait, false, [], [], none, [], 0⟩ 7
        (APIClient.submitDebugReport ⟨true, "OK", ⟨"r1", 9, none, none⟩⟩)).comment
      = "" := by
  constructor
  · exact ((handleSend_failure_keeps_comment
      ⟨"hello", none, false, "", .wait, false, [], [], none, [], 0⟩ 7
      ⟨false, "Bad Request", ⟨"", 0, none, none⟩⟩).1 rfl).1
  · exact (handleSend_failure_keeps_comment
      ⟨"hello", none, false, "", .wait, false, [], [], none, [], 0⟩ 7
      ⟨true, "OK", ⟨"r1", 9, none, none⟩⟩).2 rfl

/-! ## Claim C10: submitting answers with no session is a no-op -/

/-- C10: with no stored session id, handleSubmitAnswers is a complete no-op:
no HTTP request is issued and the state — questions, answers, session
history, waiting flag, status — is returned unchanged. -/
theorem handleSubmitAnswers_no_session_noop (s : Widget.State)
    (apiResult : Except String Unit) (hnone : s.sessionId = none) :
    Widget.handleSubmitAnswers s apiResult = (s, false) := by
  simp [Widget.handleSubmitAnswers, hnone]

/-- C10 witness: a concrete state with sessionId null is untouched and no
request goes out, for either outcome the API could have had. -/
theorem handleSubmitAnswers_no_session_noop_witness :
    Widget.handleSubmitAnswers
        ⟨"c", none, false, "st", .wait, true,
          [⟨"id1", 1, "c1", .pending, none, some "s9"⟩],
          [⟨"q1", "Why?", .text, none, true⟩], none, [("q1", "a")], 1⟩
        (.error "Failed to submit answers") =
      (⟨"c", none, false, "st", .wait, true,
          [⟨"id1", 1, "c1", .pending, none, some "s9"⟩],
          [⟨"q1", "Why?", .text, none, true⟩], none, [("q1", "a")], 1⟩, false) :=
  handleSubmitAnswers_no_session_noop
    ⟨"c", none, false, "st", .wait, true,
      [⟨"id1", 1, "c1", .pending, none, some "s9"⟩],
      [⟨"q1", "Why?", .text, none, true⟩], none, [("q1", "a")], 1⟩
    (.error "Failed to submit answers") rfl

/-! ## Claim C2: the Next button ignores the required flag -/

/-- C2: the source contradicts the required-field policy its own project
documentation states (Next disabled while a required field is empty): with
the current question of kind text, required = true, and its answer unset,
clicking Next still advances the question index.  Evaluated at the failing
input: two text questions, empty answers map, index 0 — Next moves the index
to 1 instead of being a no-op. -/
theorem nextClick_ignores_required :
    (let q1 : Question := ⟨"q1", "Why?", .text, none, true⟩
     let s : Widget.State :=
       ⟨"", none, false, "", .wait, false, [],
         [q1, ⟨"q2", "How?", .text, none, true⟩], some "s1", [], 0⟩
     s.questions[0]? = some q1 ∧ q1.type = .text ∧ q1.required = true ∧
       s.answers.lookup q1.id = none ∧ s.currentStep = 0 ∧
       (Widget.nextClick s).currentStep = 1) := by
  refine ⟨rfl, rfl, rfl, rfl, rfl, rfl⟩

end DebugWidget
